import Mathlib

/-!
Verification development for the HotelJT lodging application (`app.py`).

The reservation engine is embedded shallowly:

* dates are `Int` (days on a linear calendar; `(d2 - d1)` is the Python
  `(d2 - d1).days`),
* money is `Int` in cents-free fixed point (the Python `Decimal` values are
  exact, and every amount in the program is a product `rate * nights`),
* the SQLAlchemy store is a `Store` record holding the `rooms` and
  `bookings` tables as lists in insertion (primary-key) order,
* each Flask mutation handler becomes a function
  `Store → … → Except HError Store`; an error result models either the
  handler flashing a message and redirecting without committing any change,
  or an unhandled Python exception aborting the request (HTTP 500) with
  nothing committed — see `HError`,
* a SQLAlchemy `.filter(...)` is a `List.filter`, and `.first()` with no
  `order_by` is `List.head?` of the filtered list in insertion order,
  which is what SQLite returns for these queries.

Status strings keep their Portuguese source spellings
(`reservado | checkin | checkout | cancelado`).
-/

namespace HotelJT

/-- Booking status, from the `status` column comment in `app.py`:
`reservado|checkin|checkout|cancelado`. -/
inductive Status where
  | reservado
  | checkin
  | checkout
  | cancelado
deriving DecidableEq, Repr

/-- A row of the `rooms` table. -/
structure Room where
  id : Nat
  number : String
  room_type : String
  rate : Int
deriving DecidableEq, Repr

/-- A row of the `bookings` table. -/
structure Booking where
  id : Nat
  room_id : Nat
  guest_id : Nat
  check_in : Int
  check_out : Int
  status : Status
  notes : String
  total_amount : Int
deriving DecidableEq, Repr

/-- `Booking.nights`: `max((self.check_out - self.check_in).days, 1)`. -/
def Booking.nights (b : Booking) : Int :=
  max (b.check_out - b.check_in) 1

/-- `Booking.compute_amount`: `self.room.rate * self.nights()`.  The room's
rate is passed explicitly (the SQLAlchemy relationship lookup is done by the
caller via `findRoom`). -/
def compute_amount (rate : Int) (b : Booking) : Int :=
  rate * b.nights

/-- The database state: both tables, rows in insertion order. -/
structure Store where
  rooms : List Room
  bookings : List Booking
deriving DecidableEq, Repr

/-- Failure outcomes of the handlers.  The first four are flashed messages
plus a redirect in `app.py` (named after the spec's error kinds).  The last
two model unhandled Python exceptions escaping a handler (an HTTP 500 with
nothing committed): `attributeError` is the `AttributeError` raised by
`compute_amount` when it dereferences the `room` relationship of a
transient `Booking` (SQLAlchemy leaves it `None`, so `self.room.rate`
fails); `undefinedError` is the jinja2 `UndefinedError` raised when the
report template calls `strftime` on a `None` date. -/
inductive HError where
  | invalidDateRange
  | roomUnavailable (guest_id : Nat)
  | invalidTransition
  | notFound
  | attributeError
  | undefinedError
deriving DecidableEq, Repr

/-- Statuses that make a booking occupy its room: the set
`["reservado", "checkin"]` used by every conflict query. -/
def Status.isActive : Status → Bool
  | .reservado => true
  | .checkin => true
  | _ => false

/-- The conflict filter of `new_booking` / `booking_edit`: same room, active
status, and half-open interval overlap
(`Booking.check_in < check_out`, `Booking.check_out > check_in`). -/
def conflictPred (rid : Nat) (ci co : Int) (b : Booking) : Bool :=
  b.room_id == rid && b.status.isActive
    && decide (b.check_in < co) && decide (b.check_out > ci)

/-- Primary-key lookup in the `rooms` table. -/
def findRoom (s : Store) (rid : Nat) : Option Room :=
  s.rooms.find? (fun r => r.id == rid)

/-- Primary-key lookup in the `bookings` table (`Booking.query.get_or_404`). -/
def findBooking (s : Store) (bid : Nat) : Option Booking :=
  s.bookings.find? (fun b => b.id == bid)

/-- POST handler of `/reservas/nova` (`new_booking` in `app.py`): reject
`check_out <= check_in`, then look for a conflicting active booking on the
same room (`.first()` of the unordered filter, i.e. insertion order).  The
conflict-free branch never persists anything: it builds a transient
`Booking` and immediately calls `b.compute_amount()`, which evaluates
`self.room.rate`; SQLAlchemy does not populate the `room` relationship from
the foreign-key attribute on a transient (never-added) instance, so
`self.room` is `None` and the handler dies with an `AttributeError` before
`db.session.add` / `commit` are reached. -/
def new_booking (s : Store) (_newId rid _gid : Nat) (ci co : Int)
    (_notes : String) : Except HError Store :=
  if co ≤ ci then
    .error .invalidDateRange
  else
    match (s.bookings.filter (conflictPred rid ci co)).head? with
    | some c => .error (.roomUnavailable c.guest_id)
    | none => .error .attributeError

/-- The create success path as the spec intends it (§4.1 step 3) and as
`new_booking` would behave with its one-line slip fixed — `compute_amount`
evaluated against the referenced room's rate instead of the unloaded
transient relationship: append one `reservado` booking with
`total_amount = rate * nights`.  Because the shipped create commits
nothing, every state this operation can reach strictly contains the states
the program can reach, so it is the sound over-approximation used to close
the reachable-state system for the overlap invariant.  `newId` is the fresh
primary key the database would assign. -/
def new_booking_intended (s : Store) (newId rid gid : Nat) (ci co : Int)
    (notes : String) : Except HError Store :=
  if co ≤ ci then
    .error .invalidDateRange
  else
    match (s.bookings.filter (conflictPred rid ci co)).head? with
    | some c => .error (.roomUnavailable c.guest_id)
    | none =>
      match findRoom s rid with
      | none => .error .notFound
      | some r =>
        let b : Booking :=
          { id := newId, room_id := rid, guest_id := gid, check_in := ci,
            check_out := co, status := .reservado, notes := notes,
            total_amount := 0 }
        .ok { s with bookings :=
          s.bookings ++ [{ b with total_amount := compute_amount r.rate b }] }

/-- Row update applied by `booking_edit` to the row whose id is `bid`:
overwrite room, guest, dates and notes, then recompute the amount from the
new room's rate. -/
def editFn (bid rid gid : Nat) (ci co : Int) (notes : String) (rate : Int)
    (x : Booking) : Booking :=
  if x.id == bid then
    let y := { x with
      room_id := rid, guest_id := gid, check_in := ci,
      check_out := co, notes := notes }
    { y with total_amount := compute_amount rate y }
  else x

/-- POST handler of `/reservas/<id>/editar` (`booking_edit`): same date
validation as create, conflict scan over the other bookings
(`Booking.id != booking_id`), then field update and amount recomputation. -/
def booking_edit (s : Store) (bid rid gid : Nat) (ci co : Int)
    (notes : String) : Except HError Store :=
  match findBooking s bid with
  | none => .error .notFound
  | some _ =>
    if co ≤ ci then
      .error .invalidDateRange
    else
      match (s.bookings.filter
          (fun x => !(x.id == bid) && conflictPred rid ci co x)).head? with
      | some c => .error (.roomUnavailable c.guest_id)
      | none =>
        match findRoom s rid with
        | none => .error .notFound
        | some r =>
          .ok { s with bookings :=
            s.bookings.map (editFn bid rid gid ci co notes r.rate) }

/-- Row update of `booking_checkin`: set status of row `bid` to `checkin`. -/
def checkinFn (bid : Nat) (x : Booking) : Booking :=
  if x.id == bid then { x with status := .checkin } else x

/-- Handler of `/reservas/<id>/checkin` (`booking_checkin`): only a
`reservado` booking may check in; otherwise flash and leave state alone. -/
def booking_checkin (s : Store) (bid : Nat) : Except HError Store :=
  match findBooking s bid with
  | none => .error .notFound
  | some b =>
    if b.status = .reservado then
      .ok { s with bookings := s.bookings.map (checkinFn bid) }
    else
      .error .invalidTransition

/-- Row update of `booking_checkout`: stamp `check_out` to the current date,
recompute the amount over the adjusted stay, set status to `checkout`. -/
def checkoutFn (bid : Nat) (todayD rate : Int) (x : Booking) : Booking :=
  if x.id == bid then
    let y := { x with check_out := todayD }
    { y with total_amount := compute_amount rate y, status := .checkout }
  else x

/-- Handler of `/reservas/<id>/checkout` (`booking_checkout`): only a
`checkin` booking may check out.  `todayD` is the injected current date
(`today()` in `app.py`). -/
def booking_checkout (s : Store) (bid : Nat) (todayD : Int) :
    Except HError Store :=
  match findBooking s bid with
  | none => .error .notFound
  | some b =>
    if b.status = .checkin then
      match findRoom s b.room_id with
      | none => .error .notFound
      | some r =>
        .ok { s with bookings := s.bookings.map (checkoutFn bid todayD r.rate) }
    else
      .error .invalidTransition

/-- Row update of `booking_cancel`: set status of row `bid` to `cancelado`. -/
def cancelFn (bid : Nat) (x : Booking) : Booking :=
  if x.id == bid then { x with status := .cancelado } else x

/-- Handler of `/reservas/<id>/cancelar` (`booking_cancel`): a booking already
`checkout` or `cancelado` cannot be cancelled. -/
def booking_cancel (s : Store) (bid : Nat) : Except HError Store :=
  match findBooking s bid with
  | none => .error .notFound
  | some b =>
    if b.status = .checkout ∨ b.status = .cancelado then
      .error .invalidTransition
    else
      .ok { s with bookings := s.bookings.map (cancelFn bid) }

/-!
### Reports (`/relatorios`)

The handler first chooses the period.  Each request parameter (`d1`, `d2`)
is modelled as `Option (Option Int)`: the outer layer says whether the
parameter was supplied non-empty (Python truthiness of `start_str`), the
inner layer is the result of `datetime.strptime` (`none` models a
`ValueError`).  Occupancy rate is computed in `ℚ` (exact model of the
Python float arithmetic on these integer quotients).
-/

/-- Period selection of `reports`: when both parameters are supplied the
dates are parsed and the range validated (`end <= start` or a parse failure
flashes a message and resets both dates to `None`); when either is missing
the current calendar month `[defStart, defEnd)` is used.  Returns the chosen
period (if any) and whether a validation message was flashed. -/
def selectPeriod (p1 p2 : Option (Option Int)) (defStart defEnd : Int) :
    Option (Int × Int) × Bool :=
  match p1, p2 with
  | some pd1, some pd2 =>
    match pd1, pd2 with
    | some sd, some ed =>
      if ed ≤ sd then (none, true) else (some (sd, ed), false)
    | _, _ => (none, true)
  | _, _ => (some (defStart, defEnd), false)

/-- Period revenue: sum of `total_amount` over `checkout` bookings whose
`check_out` lies in `[sd, ed)`. -/
def report_revenue (bs : List Booking) (sd ed : Int) : Int :=
  (bs.filter (fun b => b.status == Status.checkout
      && decide (sd ≤ b.check_out) && decide (b.check_out < ed))).foldl
    (fun acc b => acc + b.total_amount) 0

/-- Occupied nights: over bookings with status in `{checkin, checkout}`
overlapping `[sd, ed)`, sum `(min(check_out, ed) - max(check_in, sd)).days`
(the source does not clamp the summand at 0). -/
def occupied_nights (bs : List Booking) (sd ed : Int) : Int :=
  (bs.filter (fun b => (b.status == Status.checkin || b.status == Status.checkout)
      && decide (b.check_in < ed) && decide (b.check_out > sd))).foldl
    (fun acc b => acc + (min b.check_out ed - max b.check_in sd)) 0

/-- Occupancy rate of the period: `occupied_nights / (period_days * rooms) * 100`,
guarded so that a non-positive denominator yields `0` with no division. -/
def occupation_rate (s : Store) (sd ed : Int) : ℚ :=
  let period_days : Int := ed - sd
  let total_rooms : Int := s.rooms.length
  let avail : Int := period_days * total_rooms
  if avail > 0 then
    ((occupied_nights s.bookings sd ed : ℚ) / (avail : ℚ)) * 100
  else 0

/-- The whole `/relatorios` handler: period selection followed by the two
figures, then the template render.  When `selectPeriod` reset the period to
`None` (both dates supplied but unparsable or `end <= start`), the figures
stay at their initial zeroes but the handler still renders the template,
whose `start.strftime` / `end.strftime` calls dereference the `None` dates
and raise a jinja2 `UndefinedError`: the request fails hard and no report
page is returned.  On a valid or default period the rendered report carries
the period, the revenue and the occupancy rate. -/
def reports (s : Store) (p1 p2 : Option (Option Int)) (defStart defEnd : Int) :
    Except HError ((Int × Int) × (Int × ℚ)) :=
  match (selectPeriod p1 p2 defStart defEnd).1 with
  | none => .error .undefinedError
  | some (sd, ed) =>
    .ok ((sd, ed), (report_revenue s.bookings sd ed, occupation_rate s sd ed))

/-!
### The no-double-booking invariant and reachable stores
-/

/-- Distinct rows of the `bookings` table have distinct primary keys. -/
def uniqueIds (bs : List Booking) : Prop :=
  ∀ a ∈ bs, ∀ b ∈ bs, a ≠ b → a.id ≠ b.id

/-- No two distinct active (`reservado`/`checkin`) bookings of the same room
have overlapping half-open stay intervals. -/
def noDoubleBook (bs : List Booking) : Prop :=
  ∀ a ∈ bs, ∀ b ∈ bs, a.id ≠ b.id → a.status.isActive = true →
    b.status.isActive = true → a.room_id = b.room_id →
    ¬ (a.check_in < b.check_out ∧ b.check_in < a.check_out)

/-- The store invariant maintained by every mutation handler. -/
def StoreInv (s : Store) : Prop :=
  uniqueIds s.bookings ∧ noDoubleBook s.bookings

/-- States reachable from an initial store with an empty `bookings` table
through the mutation handlers.  Each create receives a fresh primary key,
as the database's autoincrement column guarantees.  The create transition
uses `new_booking_intended`: the shipped `new_booking` never commits (it
crashes before `add`), so the states reachable through the intended create
are a superset of the states the program can reach, and an invariant proved
over this system covers every program-reachable state. -/
inductive Reachable : Store → Prop where
  | init (rooms : List Room) : Reachable ⟨rooms, []⟩
  | create (s s' : Store) (newId rid gid : Nat) (ci co : Int) (notes : String)
      (hs : Reachable s) (hfresh : ∀ b ∈ s.bookings, b.id ≠ newId)
      (hok : new_booking_intended s newId rid gid ci co notes = .ok s') :
      Reachable s'
  | edit (s s' : Store) (bid rid gid : Nat) (ci co : Int) (notes : String)
      (hs : Reachable s)
      (hok : booking_edit s bid rid gid ci co notes = .ok s') : Reachable s'
  | doCheckin (s s' : Store) (bid : Nat) (hs : Reachable s)
      (hok : booking_checkin s bid = .ok s') : Reachable s'
  | doCheckout (s s' : Store) (bid : Nat) (todayD : Int) (hs : Reachable s)
      (hok : booking_checkout s bid todayD = .ok s') : Reachable s'
  | doCancel (s s' : Store) (bid : Nat) (hs : Reachable s)
      (hok : booking_cancel s bid = .ok s') : Reachable s'

/-!
### Concrete stores used to exercise the theorems

`room101` is the first seeded room of `app.py` (`Single`, rate `110.00`);
the bookings mirror Scenario A of the spec (`2024-03-10 → 2024-03-12`
becomes days `0 → 2`).
-/

def room101 : Room :=
  { id := 1, number := "101", room_type := "Single", rate := 110 }

/-- Initial store: the seeded room catalogue, no bookings. -/
def demoS0 : Store := { rooms := [room101], bookings := [] }

/-- Scenario A booking: room 101 for days `[0, 2)`, amount `110 × 2`. -/
def demoBookingA : Booking :=
  { id := 1, room_id := 1, guest_id := 1, check_in := 0, check_out := 2,
    status := .reservado, notes := "", total_amount := 220 }

/-- Store after creating Scenario A's booking. -/
def demoS1 : Store := { rooms := [room101], bookings := [demoBookingA] }

/-- Scenario A's booking after check-in. -/
def demoBookingAin : Booking := { demoBookingA with status := .checkin }

/-- `demoS1` with the Scenario A booking checked in. -/
def demoS2 : Store :=
  { rooms := [room101], bookings := [demoBookingAin] }

/-- `demoS2` after checking out on day 1: the stay is shortened to `[0, 1)`
and the amount recomputed to `110 × 1`. -/
def demoS2co : Store :=
  { rooms := [room101],
    bookings :=
      [{ id := 1, room_id := 1, guest_id := 1, check_in := 0, check_out := 1,
         status := .checkout, notes := "", total_amount := 110 }] }


/-- A store holding one `checkout` booking worth `220` over days `[0, 2)`:
revenue data for the default report period. -/
def demoS3 : Store :=
  { rooms := [room101],
    bookings := [{ demoBookingA with status := .checkout }] }

/-- `demoS1` with the Scenario A booking cancelled. -/
def demoS1c : Store :=
  { rooms := [room101],
    bookings := [{ demoBookingA with status := .cancelado }] }

/-- First row of `demoS4`: guest 1 occupies room 101 for `[0, 10)`. -/
def demoBookingEarly : Booking :=
  { id := 1, room_id := 1, guest_id := 1, check_in := 0, check_out := 10,
    status := .reservado, notes := "", total_amount := 1100 }

/-- Second row of `demoS4`: guest 2 occupies room 101 for `[5, 15)`: the
later `check_in` of the two. -/
def demoBookingLate : Booking :=
  { id := 2, room_id := 1, guest_id := 2, check_in := 5, check_out := 15,
    status := .reservado, notes := "", total_amount := 1100 }

/-- Two active bookings of room 101 in insertion order: id 1 starts at day
`0`, id 2 starts at day `5`.  Both conflict with a request for `[6, 8)`. -/
def demoS4 : Store :=
  { rooms := [room101], bookings := [demoBookingEarly, demoBookingLate] }

/-!
### Characterisation of successful mutations
-/

theorem editFn_id (bid rid gid : Nat) (ci co : Int) (notes : String)
    (rate : Int) (x : Booking) :
    (editFn bid rid gid ci co notes rate x).id = x.id := by
  unfold editFn
  split <;> rfl

theorem checkinFn_id (bid : Nat) (x : Booking) :
    (checkinFn bid x).id = x.id := by
  unfold checkinFn
  split <;> rfl

theorem checkoutFn_id (bid : Nat) (todayD rate : Int) (x : Booking) :
    (checkoutFn bid todayD rate x).id = x.id := by
  unfold checkoutFn
  split <;> rfl

theorem cancelFn_id (bid : Nat) (x : Booking) :
    (cancelFn bid x).id = x.id := by
  unfold cancelFn
  split <;> rfl

/-- A successful intended create means: valid dates, an empty conflict
scan, an existing room, and the new `reservado` row appended with
`total_amount = rate * nights`. -/
theorem new_booking_intended_ok (s s' : Store) (newId rid gid : Nat)
    (ci co : Int) (notes : String)
    (h : new_booking_intended s newId rid gid ci co notes = .ok s') :
    ci < co ∧ s.bookings.filter (conflictPred rid ci co) = [] ∧
      ∃ r, findRoom s rid = some r ∧
        s' = { s with bookings := s.bookings ++
          [{ id := newId, room_id := rid, guest_id := gid, check_in := ci,
             check_out := co, status := .reservado, notes := notes,
             total_amount := r.rate * max (co - ci) 1 }] } := by
  unfold new_booking_intended at h
  split at h
  · exact absurd h (by simp)
  · rename_i hdate
    split at h
    · exact absurd h (by simp)
    · rename_i hconf
      split at h
      · exact absurd h (by simp)
      · rename_i r hroom
        refine ⟨by omega, by
          have := List.head?_eq_none_iff.mp hconf
          exact this, r, hroom, ?_⟩
        injection h with h'
        exact h'.symm

/-- A successful edit means: the booking exists, valid dates, an empty
conflict scan over the other rows, an existing room, and a pointwise
`editFn` update of the table. -/
theorem booking_edit_ok (s s' : Store) (bid rid gid : Nat) (ci co : Int)
    (notes : String) (h : booking_edit s bid rid gid ci co notes = .ok s') :
    (∃ b0, findBooking s bid = some b0) ∧ ci < co ∧
      s.bookings.filter
        (fun x => !(x.id == bid) && conflictPred rid ci co x) = [] ∧
      ∃ r, findRoom s rid = some r ∧
        s' = { s with bookings :=
          s.bookings.map (editFn bid rid gid ci co notes r.rate) } := by
  unfold booking_edit at h
  split at h
  · exact absurd h (by simp)
  · rename_i b0 hb0
    split at h
    · exact absurd h (by simp)
    · rename_i hdate
      split at h
      · exact absurd h (by simp)
      · rename_i hconf
        split at h
        · exact absurd h (by simp)
        · rename_i r hroom
          refine ⟨⟨b0, hb0⟩, by omega, List.head?_eq_none_iff.mp hconf,
            r, hroom, ?_⟩
          injection h with h'
          exact h'.symm

/-- A successful check-in means: the booking exists in status `reservado`,
and the table is updated pointwise by `checkinFn`. -/
theorem booking_checkin_ok (s s' : Store) (bid : Nat)
    (h : booking_checkin s bid = .ok s') :
    ∃ b, findBooking s bid = some b ∧ b.status = .reservado ∧
      s' = { s with bookings := s.bookings.map (checkinFn bid) } := by
  unfold booking_checkin at h
  split at h
  · exact absurd h (by simp)
  · rename_i b hb
    split at h
    · rename_i hst
      injection h with h'
      exact ⟨b, hb, hst, h'.symm⟩
    · exact absurd h (by simp)

/-- A successful check-out means: the booking exists in status `checkin`,
its room exists, and the table is updated pointwise by `checkoutFn`. -/
theorem booking_checkout_ok (s s' : Store) (bid : Nat) (todayD : Int)
    (h : booking_checkout s bid todayD = .ok s') :
    ∃ b, findBooking s bid = some b ∧ b.status = .checkin ∧
      ∃ r, findRoom s b.room_id = some r ∧
        s' = { s with bookings :=
          s.bookings.map (checkoutFn bid todayD r.rate) } := by
  unfold booking_checkout at h
  split at h
  · exact absurd h (by simp)
  · rename_i b hb
    split at h
    · rename_i hst
      split at h
      · exact absurd h (by simp)
      · rename_i r hroom
        injection h with h'
        exact ⟨b, hb, hst, r, hroom, h'.symm⟩
    · exact absurd h (by simp)

/-- A successful cancel means: the booking exists in a non-terminal status,
and the table is updated pointwise by `cancelFn`. -/
theorem booking_cancel_ok (s s' : Store) (bid : Nat)
    (h : booking_cancel s bid = .ok s') :
    ∃ b, findBooking s bid = some b ∧
      ¬ (b.status = .checkout ∨ b.status = .cancelado) ∧
      s' = { s with bookings := s.bookings.map (cancelFn bid) } := by
  unfold booking_cancel at h
  split at h
  · exact absurd h (by simp)
  · rename_i b hb
    split at h
    · exact absurd h (by simp)
    · rename_i hst
      injection h with h'
      exact ⟨b, hb, hst, h'.symm⟩

/-!
### Preservation of the no-double-booking invariant
-/

theorem uniqueIds_map (f : Booking → Booking) (hid : ∀ x, (f x).id = x.id)
    (bs : List Booking) (h : uniqueIds bs) : uniqueIds (bs.map f) := by
  intro a' ha' b' hb' hne
  rw [List.mem_map] at ha' hb'
  obtain ⟨a, ha, rfl⟩ := ha'
  obtain ⟨b, hb, rfl⟩ := hb'
  rw [hid, hid]
  exact h a ha b hb (fun he => hne (congrArg f he))

theorem uniqueIds_eq_of_id {bs : List Booking} {a b : Booking}
    (h : uniqueIds bs) (ha : a ∈ bs) (hb : b ∈ bs) (hid : a.id = b.id) :
    a = b := by
  by_contra hne
  exact h a ha b hb hne hid

theorem storeInv_new_booking {s s' : Store} {newId rid gid : Nat}
    {ci co : Int} {notes : String} (hinv : StoreInv s)
    (hfresh : ∀ b ∈ s.bookings, b.id ≠ newId)
    (h : new_booking_intended s newId rid gid ci co notes = .ok s') :
    StoreInv s' := by
  obtain ⟨hlt, hfilter, r, hroom, rfl⟩ :=
    new_booking_intended_ok s s' newId rid gid ci co notes h
  have hnc : ∀ b ∈ s.bookings, ¬ conflictPred rid ci co b = true :=
    List.filter_eq_nil_iff.mp hfilter
  constructor
  · intro a ha b hb hne
    rw [List.mem_append, List.mem_singleton] at ha hb
    rcases ha with ha | rfl <;> rcases hb with hb | rfl
    · exact hinv.1 a ha b hb hne
    · simpa using hfresh a ha
    · intro hid
      exact hfresh b hb (by simpa using hid.symm)
    · exact absurd rfl hne
  · intro a ha b hb hid hacta hactb hroomeq
    rw [List.mem_append, List.mem_singleton] at ha hb
    rcases ha with ha | rfl <;> rcases hb with hb | rfl
    · exact hinv.2 a ha b hb hid hacta hactb hroomeq
    · rintro ⟨h1, h2⟩
      apply hnc a ha
      simp only [conflictPred, Bool.and_eq_true, beq_iff_eq, decide_eq_true_eq]
      refine ⟨⟨⟨by simpa using hroomeq, hacta⟩, by simpa using h1⟩, ?_⟩
      simpa using h2
    · rintro ⟨h1, h2⟩
      apply hnc b hb
      simp only [conflictPred, Bool.and_eq_true, beq_iff_eq, decide_eq_true_eq]
      refine ⟨⟨⟨by simpa using hroomeq.symm, hactb⟩, by simpa using h2⟩, ?_⟩
      simpa using h1
    · exact absurd rfl hid

/-- Projections of the row actually edited by `editFn`. -/
theorem editFn_pos {bid rid gid : Nat} {ci co : Int} {notes : String}
    {rate : Int} {x : Booking} (h : x.id = bid) :
    (editFn bid rid gid ci co notes rate x).room_id = rid ∧
    (editFn bid rid gid ci co notes rate x).check_in = ci ∧
    (editFn bid rid gid ci co notes rate x).check_out = co ∧
    (editFn bid rid gid ci co notes rate x).status = x.status := by
  unfold editFn
  rw [if_pos (by simpa using h)]
  exact ⟨rfl, rfl, rfl, rfl⟩

/-- `editFn` leaves every other row untouched. -/
theorem editFn_neg {bid rid gid : Nat} {ci co : Int} {notes : String}
    {rate : Int} {x : Booking} (h : ¬ x.id = bid) :
    editFn bid rid gid ci co notes rate x = x := by
  unfold editFn
  rw [if_neg (by simpa using h)]

theorem storeInv_booking_edit {s s' : Store} {bid rid gid : Nat}
    {ci co : Int} {notes : String} (hinv : StoreInv s)
    (h : booking_edit s bid rid gid ci co notes = .ok s') : StoreInv s' := by
  obtain ⟨⟨b0, hb0⟩, hlt, hfilter, r, hroom, rfl⟩ :=
    booking_edit_ok s s' bid rid gid ci co notes h
  have hnc : ∀ b ∈ s.bookings,
      ¬ (!(b.id == bid) && conflictPred rid ci co b) = true :=
    List.filter_eq_nil_iff.mp hfilter
  constructor
  · exact uniqueIds_map _ (editFn_id bid rid gid ci co notes r.rate)
      s.bookings hinv.1
  · intro a' ha' b' hb' hid hacta hactb hroomeq
    rw [List.mem_map] at ha' hb'
    obtain ⟨a, ha, rfl⟩ := ha'
    obtain ⟨b, hb, rfl⟩ := hb'
    rw [editFn_id, editFn_id] at hid
    by_cases hca : a.id = bid <;> by_cases hcb : b.id = bid
    · exact absurd (hca.trans hcb.symm) hid
    · -- `a` is the edited row, `b` is untouched
      obtain ⟨hfr, hfi, hfo, _⟩ :=
        @editFn_pos bid rid gid ci co notes r.rate a hca
      have hfb : editFn bid rid gid ci co notes r.rate b = b := editFn_neg hcb
      rw [hfr, hfb] at hroomeq
      rw [hfb] at hactb
      rw [hfi, hfo, hfb]
      rintro ⟨h1, h2⟩
      apply hnc b hb
      simp only [Bool.and_eq_true, Bool.not_eq_true', beq_eq_false_iff_ne,
        ne_eq, conflictPred, beq_iff_eq, decide_eq_true_eq]
      exact ⟨hcb, ⟨⟨hroomeq.symm, hactb⟩, h2⟩, h1⟩
    · -- `b` is the edited row, `a` is untouched
      obtain ⟨hfr, hfi, hfo, _⟩ :=
        @editFn_pos bid rid gid ci co notes r.rate b hcb
      have hfa : editFn bid rid gid ci co notes r.rate a = a := editFn_neg hca
      rw [hfa, hfr] at hroomeq
      rw [hfa] at hacta
      rw [hfi, hfo, hfa]
      rintro ⟨h1, h2⟩
      apply hnc a ha
      simp only [Bool.and_eq_true, Bool.not_eq_true', beq_eq_false_iff_ne,
        ne_eq, conflictPred, beq_iff_eq, decide_eq_true_eq]
      exact ⟨hca, ⟨⟨hroomeq, hacta⟩, h1⟩, h2⟩
    · have hfa : editFn bid rid gid ci co notes r.rate a = a := editFn_neg hca
      have hfb : editFn bid rid gid ci co notes r.rate b = b := editFn_neg hcb
      simp only [hfa, hfb] at hroomeq hacta hactb ⊢
      exact hinv.2 a ha b hb hid hacta hactb hroomeq

theorem checkinFn_fields (bid : Nat) (x : Booking) :
    (checkinFn bid x).room_id = x.room_id ∧
    (checkinFn bid x).check_in = x.check_in ∧
    (checkinFn bid x).check_out = x.check_out := by
  unfold checkinFn
  split <;> exact ⟨rfl, rfl, rfl⟩

theorem checkinFn_neg {bid : Nat} {x : Booking} (h : ¬ x.id = bid) :
    checkinFn bid x = x := by
  unfold checkinFn
  rw [if_neg (by simpa using h)]

theorem checkoutFn_status_pos {bid : Nat} {todayD rate : Int} {x : Booking}
    (h : x.id = bid) : (checkoutFn bid todayD rate x).status = .checkout := by
  unfold checkoutFn
  rw [if_pos (by simpa using h)]

theorem checkoutFn_neg {bid : Nat} {todayD rate : Int} {x : Booking}
    (h : ¬ x.id = bid) : checkoutFn bid todayD rate x = x := by
  unfold checkoutFn
  rw [if_neg (by simpa using h)]

theorem cancelFn_status_pos {bid : Nat} {x : Booking} (h : x.id = bid) :
    (cancelFn bid x).status = .cancelado := by
  unfold cancelFn
  rw [if_pos (by simpa using h)]

theorem cancelFn_neg {bid : Nat} {x : Booking} (h : ¬ x.id = bid) :
    cancelFn bid x = x := by
  unfold cancelFn
  rw [if_neg (by simpa using h)]

theorem storeInv_booking_checkin {s s' : Store} {bid : Nat}
    (hinv : StoreInv s) (h : booking_checkin s bid = .ok s') : StoreInv s' := by
  obtain ⟨b0, hb0, hst, rfl⟩ := booking_checkin_ok s s' bid h
  have hb0mem : b0 ∈ s.bookings := List.mem_of_find?_eq_some hb0
  have hb0id : b0.id = bid := by simpa using List.find?_some hb0
  constructor
  · exact uniqueIds_map _ (checkinFn_id bid) s.bookings hinv.1
  · intro a' ha' b' hb' hid hacta hactb hroomeq
    rw [List.mem_map] at ha' hb'
    obtain ⟨a, ha, rfl⟩ := ha'
    obtain ⟨b, hb, rfl⟩ := hb'
    rw [checkinFn_id, checkinFn_id] at hid
    obtain ⟨hra, hia, hoa⟩ := checkinFn_fields bid a
    obtain ⟨hrb, hib, hob⟩ := checkinFn_fields bid b
    rw [hra, hrb] at hroomeq
    rw [hia, hoa, hib, hob]
    have hactA : a.status.isActive = true := by
      by_cases hc : a.id = bid
      · have hab : a = b0 :=
          uniqueIds_eq_of_id hinv.1 ha hb0mem (by rw [hc, hb0id])
        rw [hab, hst]
        rfl
      · rw [checkinFn_neg hc] at hacta
        exact hacta
    have hactB : b.status.isActive = true := by
      by_cases hc : b.id = bid
      · have hab : b = b0 :=
          uniqueIds_eq_of_id hinv.1 hb hb0mem (by rw [hc, hb0id])
        rw [hab, hst]
        rfl
      · rw [checkinFn_neg hc] at hactb
        exact hactb
    exact hinv.2 a ha b hb hid hactA hactB hroomeq

theorem storeInv_booking_checkout {s s' : Store} {bid : Nat} {todayD : Int}
    (hinv : StoreInv s) (h : booking_checkout s bid todayD = .ok s') :
    StoreInv s' := by
  obtain ⟨b0, hb0, hst, r, hroom, rfl⟩ := booking_checkout_ok s s' bid todayD h
  constructor
  · exact uniqueIds_map _ (checkoutFn_id bid todayD r.rate) s.bookings hinv.1
  · intro a' ha' b' hb' hid hacta hactb hroomeq
    rw [List.mem_map] at ha' hb'
    obtain ⟨a, ha, rfl⟩ := ha'
    obtain ⟨b, hb, rfl⟩ := hb'
    rw [checkoutFn_id, checkoutFn_id] at hid
    have hna : ¬ a.id = bid := by
      intro hc
      rw [checkoutFn_status_pos hc] at hacta
      exact absurd hacta (by simp [Status.isActive])
    have hnb : ¬ b.id = bid := by
      intro hc
      rw [checkoutFn_status_pos hc] at hactb
      exact absurd hactb (by simp [Status.isActive])
    simp only [checkoutFn_neg hna, checkoutFn_neg hnb] at hacta hactb hroomeq ⊢
    exact hinv.2 a ha b hb hid hacta hactb hroomeq

theorem storeInv_booking_cancel {s s' : Store} {bid : Nat}
    (hinv : StoreInv s) (h : booking_cancel s bid = .ok s') : StoreInv s' := by
  obtain ⟨b0, hb0, hst, rfl⟩ := booking_cancel_ok s s' bid h
  constructor
  · exact uniqueIds_map _ (cancelFn_id bid) s.bookings hinv.1
  · intro a' ha' b' hb' hid hacta hactb hroomeq
    rw [List.mem_map] at ha' hb'
    obtain ⟨a, ha, rfl⟩ := ha'
    obtain ⟨b, hb, rfl⟩ := hb'
    rw [cancelFn_id, cancelFn_id] at hid
    have hna : ¬ a.id = bid := by
      intro hc
      rw [cancelFn_status_pos hc] at hacta
      exact absurd hacta (by simp [Status.isActive])
    have hnb : ¬ b.id = bid := by
      intro hc
      rw [cancelFn_status_pos hc] at hactb
      exact absurd hactb (by simp [Status.isActive])
    simp only [cancelFn_neg hna, cancelFn_neg hnb] at hacta hactb hroomeq ⊢
    exact hinv.2 a ha b hb hid hacta hactb hroomeq

/-- Every reachable store satisfies the invariant: unique primary keys and
no overlapping active bookings on any room. -/
theorem storeInv_of_reachable (s : Store) (h : Reachable s) : StoreInv s := by
  induction h with
  | init rooms =>
    exact ⟨fun a ha => absurd ha (List.not_mem_nil a),
      fun a ha => absurd ha (List.not_mem_nil a)⟩
  | create s s' newId rid gid ci co notes hs hfresh hok ih =>
    exact storeInv_new_booking ih hfresh hok
  | edit s s' bid rid gid ci co notes hs hok ih =>
    exact storeInv_booking_edit ih hok
  | doCheckin s s' bid hs hok ih =>
    exact storeInv_booking_checkin ih hok
  | doCheckout s s' bid todayD hs hok ih =>
    exact storeInv_booking_checkout ih hok
  | doCancel s s' bid hs hok ih =>
    exact storeInv_booking_cancel ih hok

/-!
### Success and failure equations for the handlers
-/

/-- With valid dates and an empty conflict scan, the shipped create handler
crashes: `compute_amount` dereferences the transient booking's unloaded
`room` relationship and nothing is committed. -/
theorem new_booking_no_conflict_crashes (s : Store) (newId rid gid : Nat)
    (ci co : Int) (notes : String) (hlt : ci < co)
    (hfil : s.bookings.filter (conflictPred rid ci co) = []) :
    new_booking s newId rid gid ci co notes = .error .attributeError := by
  unfold new_booking
  rw [if_neg (by omega), hfil]
  rfl

theorem booking_checkin_success (s : Store) (bid : Nat) (b : Booking)
    (hb : findBooking s bid = some b) (hst : b.status = .reservado) :
    booking_checkin s bid =
      .ok { s with bookings := s.bookings.map (checkinFn bid) } := by
  unfold booking_checkin
  rw [hb]
  show (if b.status = Status.reservado then _ else _) = _
  rw [if_pos hst]

theorem booking_checkin_fail (s : Store) (bid : Nat) (b : Booking)
    (hb : findBooking s bid = some b) (hst : ¬ b.status = .reservado) :
    booking_checkin s bid = .error .invalidTransition := by
  unfold booking_checkin
  rw [hb]
  show (if b.status = Status.reservado then _ else _) = _
  rw [if_neg hst]

theorem booking_checkout_success (s : Store) (bid : Nat) (todayD : Int)
    (b : Booking) (hb : findBooking s bid = some b)
    (hst : b.status = .checkin) (r : Room)
    (hr : findRoom s b.room_id = some r) :
    booking_checkout s bid todayD =
      .ok { s with bookings := s.bookings.map (checkoutFn bid todayD r.rate) } := by
  unfold booking_checkout
  rw [hb]
  show (if b.status = Status.checkin then _ else _) = _
  rw [if_pos hst]
  show (match findRoom s b.room_id with
    | none => Except.error HError.notFound
    | some r => _) = _
  rw [hr]

theorem booking_checkout_fail (s : Store) (bid : Nat) (todayD : Int)
    (b : Booking) (hb : findBooking s bid = some b)
    (hst : ¬ b.status = .checkin) :
    booking_checkout s bid todayD = .error .invalidTransition := by
  unfold booking_checkout
  rw [hb]
  show (if b.status = Status.checkin then _ else _) = _
  rw [if_neg hst]

theorem booking_cancel_success (s : Store) (bid : Nat) (b : Booking)
    (hb : findBooking s bid = some b)
    (hst : ¬ (b.status = .checkout ∨ b.status = .cancelado)) :
    booking_cancel s bid =
      .ok { s with bookings := s.bookings.map (cancelFn bid) } := by
  unfold booking_cancel
  rw [hb]
  show (if b.status = Status.checkout ∨ b.status = Status.cancelado
    then _ else _) = _
  rw [if_neg hst]

/-!
### Frame facts for the status-only updates
-/

theorem checkinFn_frame (bid : Nat) (x : Booking) :
    (checkinFn bid x).id = x.id ∧ (checkinFn bid x).room_id = x.room_id ∧
    (checkinFn bid x).guest_id = x.guest_id ∧
    (checkinFn bid x).check_in = x.check_in ∧
    (checkinFn bid x).check_out = x.check_out ∧
    (checkinFn bid x).notes = x.notes ∧
    (checkinFn bid x).total_amount = x.total_amount := by
  unfold checkinFn
  split <;> exact ⟨rfl, rfl, rfl, rfl, rfl, rfl, rfl⟩

theorem cancelFn_frame (bid : Nat) (x : Booking) :
    (cancelFn bid x).id = x.id ∧ (cancelFn bid x).room_id = x.room_id ∧
    (cancelFn bid x).guest_id = x.guest_id ∧
    (cancelFn bid x).check_in = x.check_in ∧
    (cancelFn bid x).check_out = x.check_out ∧
    (cancelFn bid x).notes = x.notes ∧
    (cancelFn bid x).total_amount = x.total_amount := by
  unfold cancelFn
  split <;> exact ⟨rfl, rfl, rfl, rfl, rfl, rfl, rfl⟩

theorem map_proj_of_pointwise {α : Type} (f : Booking → Booking)
    (p : Booking → α) (h : ∀ x, p (f x) = p x) (l : List Booking) :
    (l.map f).map p = l.map p := by
  rw [List.map_map]
  congr 1
  funext x
  exact h x

/-!
### The claims
-/

/-- C1 (code bug): the date validation (`InvalidDateRange` first) behaves
as claimed, but the success path never persists anything: on the empty
store, a conflict-free create of room 101 for `[0, 2)` raises an
`AttributeError` — `compute_amount` dereferences the transient booking's
`room` relationship, which SQLAlchemy leaves `None` — before
`session.add`/`commit`, so the claimed `reservado` row with
`total_amount = rate * nights` is never created.  The last conjunct shows
what the spec-intended create would persist on the same input. -/
theorem new_booking_create_crashes :
    new_booking demoS0 1 1 1 0 2 "" = .error .attributeError
    ∧ new_booking demoS0 1 1 1 2 2 "" = .error .invalidDateRange
    ∧ new_booking_intended demoS0 1 1 1 0 2 "" = .ok demoS1 :=
  ⟨rfl, rfl, rfl⟩

/-- C2: in every reachable store, at most one booking with status in
`{reservado, checkin}` covers a given room on a given date: any two such
bookings covering the same room and date are the same row.  This is the
no-overlap invariant, preserved by create, edit, check-in, check-out and
cancel. -/
theorem reachable_no_double_occupancy (s : Store) (h : Reachable s)
    (d : Int) (rid : Nat) (b1 b2 : Booking)
    (h1 : b1 ∈ s.bookings) (h2 : b2 ∈ s.bookings)
    (ha1 : b1.status.isActive = true) (ha2 : b2.status.isActive = true)
    (hr1 : b1.room_id = rid) (hr2 : b2.room_id = rid)
    (hc1 : b1.check_in ≤ d ∧ d < b1.check_out)
    (hc2 : b2.check_in ≤ d ∧ d < b2.check_out) : b1 = b2 := by
  obtain ⟨huniq, hno⟩ := storeInv_of_reachable s h
  by_contra hne
  have hid : b1.id ≠ b2.id := huniq b1 h1 b2 h2 hne
  exact hno b1 h1 b2 h2 hid ha1 ha2 (hr1.trans hr2.symm)
    ⟨by omega, by omega⟩

theorem reachable_no_double_occupancy_witness :
    demoBookingA = demoBookingA :=
  reachable_no_double_occupancy demoS1
    (Reachable.create demoS0 demoS1 1 1 1 0 2 "" (Reachable.init [room101])
      (fun b hb => absurd hb (List.not_mem_nil b)) (by rfl))
    0 1 demoBookingA demoBookingA (by decide) (by decide)
    (by decide) (by decide) rfl rfl (by decide) (by decide)

/-- C3 counterexample: both dates supplied with `end ≤ start` (start day 5,
end day 3, default month `[0, 31)`).  A validation message is flashed, but
the request then fails hard — the template renders `strftime` on the
`None` dates and raises `UndefinedError` — instead of returning the
default-period report; the default-month report over the same store (the
missing-parameter path) would have been a real page with revenue `220`. -/
theorem reports_invalid_range_fails_hard :
    reports demoS3 (some (some 5)) (some (some 3)) 0 31 =
      .error .undefinedError
    ∧ (selectPeriod (some (some 5)) (some (some 3)) 0 31).2 = true
    ∧ reports demoS3 none none 0 31 =
        .ok ((0, 31), (220, occupation_rate demoS3 0 31)) :=
  ⟨rfl, rfl, rfl⟩

/-- C3 amended: when both date parameters are supplied but either fails to
parse or `end ≤ start`, the handler flashes a validation message, resets
the period to `None`, and the request then fails hard with the template's
`UndefinedError` — no report (default-period or otherwise) is returned;
the default period (current calendar month) is used only when at least one
date parameter is missing/empty. -/
theorem reports_validation_behaviour (s : Store) (d1 d2 : Option Int)
    (p1 p2 : Option (Option Int)) (defStart defEnd : Int) :
    ((d1 = none ∨ d2 = none ∨
        ∃ sd ed, d1 = some sd ∧ d2 = some ed ∧ ed ≤ sd) →
      (selectPeriod (some d1) (some d2) defStart defEnd).2 = true
      ∧ reports s (some d1) (some d2) defStart defEnd =
          .error .undefinedError)
    ∧ (p1 = none ∨ p2 = none →
      reports s p1 p2 defStart defEnd =
        .ok ((defStart, defEnd),
          (report_revenue s.bookings defStart defEnd,
           occupation_rate s defStart defEnd))) := by
  constructor
  · intro hinv
    rcases hinv with rfl | hinv
    · exact ⟨by cases d2 <;> rfl, by cases d2 <;> rfl⟩
    rcases hinv with rfl | ⟨sd, ed, rfl, rfl, hle⟩
    · exact ⟨by cases d1 <;> rfl, by cases d1 <;> rfl⟩
    · have hsel : selectPeriod (some (some sd)) (some (some ed))
          defStart defEnd = (none, true) := by
        show (if ed ≤ sd then ((none : Option (Int × Int)), true)
          else (some (sd, ed), false)) = (none, true)
        rw [if_pos hle]
      constructor
      · rw [hsel]
      · unfold reports
        rw [hsel]
  · intro hmiss
    rcases hmiss with rfl | rfl
    · cases p2 <;> rfl
    · cases p1 <;> rfl

theorem reports_validation_behaviour_witness :
    ((selectPeriod (some (some 5)) (some (some 3)) 0 31).2 = true
      ∧ reports demoS3 (some (some 5)) (some (some 3)) 0 31 =
          .error .undefinedError)
    ∧ reports demoS3 none (some (some 5)) 0 31 =
        .ok ((0, 31),
          (report_revenue demoS3.bookings 0 31, occupation_rate demoS3 0 31)) :=
  ⟨(reports_validation_behaviour demoS3 (some 5) (some 3)
      none (some (some 5)) 0 31).1
      (Or.inr (Or.inr ⟨5, 3, rfl, rfl, by decide⟩)),
   (reports_validation_behaviour demoS3 (some 5) (some 3)
      none (some (some 5)) 0 31).2 (Or.inl rfl)⟩

/-- C4 counterexample: in `demoS4` both stored bookings conflict with a
request for room 1 over `[6, 8)`.  The conflicting booking with the most
recent `check_in` is `demoBookingLate` (guest 2, `check_in` 5), yet the
handler reports guest 1, the guest of the first conflicting row in storage
order — the conflict query of `new_booking` carries no `ORDER BY`. -/
theorem new_booking_conflict_not_most_recent :
    new_booking demoS4 3 1 9 6 8 "" = .error (.roomUnavailable 1)
    ∧ demoBookingLate ∈ demoS4.bookings
    ∧ conflictPred 1 6 8 demoBookingLate = true
    ∧ demoBookingEarly.check_in < demoBookingLate.check_in
    ∧ demoBookingLate.guest_id = 2
    ∧ ¬ (1 : Nat) = 2 :=
  ⟨rfl, by decide, by decide, by decide, rfl, by decide⟩

/-- C4 amended: when the conflict scan finds one or more conflicting
bookings, `new_booking` fails with `RoomUnavailable` naming the guest of the
FIRST conflicting booking in storage (insertion/primary-key) order — the
query requests no ordering, so the "most-recent check-in first" rule is not
what the code implements. -/
theorem new_booking_conflict_first_in_store_order (s : Store)
    (newId rid gid : Nat) (ci co : Int) (notes : String) (c : Booking)
    (hlt : ci < co)
    (hc : (s.bookings.filter (conflictPred rid ci co)).head? = some c) :
    new_booking s newId rid gid ci co notes =
      .error (.roomUnavailable c.guest_id) := by
  unfold new_booking
  rw [if_neg (by omega), hc]

theorem new_booking_conflict_first_in_store_order_witness :
    new_booking demoS4 3 1 9 6 8 "" = .error (.roomUnavailable 1) :=
  new_booking_conflict_first_in_store_order demoS4 3 1 9 6 8 ""
    demoBookingEarly (by decide) (by rfl)

/-- C5: the check-out transition succeeds only from status `checkin`: on
success the booking's `check_out` is stamped to the current date, its
`total_amount` is recomputed as `room.rate * nights` over the adjusted stay,
and its status becomes `checkout`; from any other status the handler fails
with `InvalidTransition` and commits nothing. -/
theorem booking_checkout_transition (s : Store) (bid : Nat) (todayD : Int)
    (b : Booking) (hb : findBooking s bid = some b) (r : Room)
    (hr : findRoom s b.room_id = some r) :
    (b.status = .checkin →
      booking_checkout s bid todayD =
        .ok { s with bookings := s.bookings.map (checkoutFn bid todayD r.rate) }
      ∧ checkoutFn bid todayD r.rate b = { b with
          check_out := todayD, status := .checkout,
          total_amount := r.rate * max (todayD - b.check_in) 1 })
    ∧ (b.status ≠ .checkin →
      booking_checkout s bid todayD = .error .invalidTransition) := by
  have hbid : (b.id == bid) = true := by simpa using List.find?_some hb
  constructor
  · intro hst
    refine ⟨booking_checkout_success s bid todayD b hb hst r hr, ?_⟩
    unfold checkoutFn
    rw [if_pos hbid]
    rfl
  · intro hst
    exact booking_checkout_fail s bid todayD b hb hst

theorem booking_checkout_transition_witness :
    booking_checkout demoS2 1 1 = .ok demoS2co
    ∧ booking_checkout demoS1 1 1 = .error .invalidTransition := by
  constructor
  · have h := ((booking_checkout_transition demoS2 1 1 demoBookingAin rfl
      room101 rfl).1 rfl).1
    rw [h]
    rfl
  · exact (booking_checkout_transition demoS1 1 1 demoBookingA rfl
      room101 rfl).2 (by decide)

/-- C6: the check-in transition is allowed only from status `reservado`;
from any other status (in particular a second check-in of an already
checked-in booking) the handler fails with `InvalidTransition` and commits
nothing. -/
theorem booking_checkin_transition (s : Store) (bid : Nat) (b : Booking)
    (hb : findBooking s bid = some b) :
    (b.status = .reservado →
      booking_checkin s bid =
        .ok { s with bookings := s.bookings.map (checkinFn bid) })
    ∧ (b.status ≠ .reservado →
      booking_checkin s bid = .error .invalidTransition) :=
  ⟨fun hst => booking_checkin_success s bid b hb hst,
   fun hst => booking_checkin_fail s bid b hb hst⟩

theorem booking_checkin_transition_witness :
    booking_checkin demoS1 1 = .ok demoS2
    ∧ booking_checkin demoS2 1 = .error .invalidTransition := by
  constructor
  · have h := (booking_checkin_transition demoS1 1 demoBookingA rfl).1 rfl
    rw [h]
    rfl
  · exact (booking_checkin_transition demoS2 1 demoBookingAin rfl).2
      (by decide)

/-- C7 (code bug): on `demoS1` (room 101 actively booked for `[0, 2)`), a
create overlapping it (`[1, 3)`) fails with `RoomUnavailable` as claimed,
but a create merely touching the boundary (`[2, 4)`, new `check_in` equal to
the existing `check_out`) does not succeed: it passes the half-open
availability check and then raises the `AttributeError` of `compute_amount`
(the transient booking's `room` relationship is `None`), so nothing is
persisted. -/
theorem new_booking_half_open_boundary_crashes :
    new_booking demoS1 2 1 2 1 3 "" = .error (.roomUnavailable 1)
    ∧ new_booking demoS1 2 1 2 2 4 "" = .error .attributeError :=
  ⟨rfl, rfl⟩

/-- C8: a report period with zero rooms or a zero-length (or empty, i.e.
non-positive) date range yields occupancy rate `0`: the guard on the
denominator `period_days * total_rooms` skips the division entirely, so no
division error can occur. -/
theorem occupation_rate_zero_denominator (s : Store) (sd ed : Int)
    (h : s.rooms = [] ∨ ed ≤ sd) : occupation_rate s sd ed = 0 := by
  simp only [occupation_rate]
  have hnp : ¬ ((ed - sd) * (s.rooms.length : Int) > 0) := by
    rcases h with h | h
    · rw [h]
      simp
    · intro hpos
      have hlen : (0 : Int) ≤ (s.rooms.length : Int) := Int.ofNat_nonneg _
      have hsd : ed - sd ≤ 0 := by omega
      nlinarith
  rw [if_neg hnp]

theorem occupation_rate_zero_denominator_witness :
    occupation_rate demoS3 5 5 = 0 :=
  occupation_rate_zero_denominator demoS3 5 5 (Or.inr (by decide))

/-- C9: checking out on a date on or before the booking's `check_in` stores
a `check_out ≤ check_in` (the date-order invariant is not re-enforced by
this transition), and the recomputed `total_amount` is exactly
`room.rate * 1`, because `nights` clamps at a minimum of 1. -/
theorem booking_checkout_clamps (s : Store) (bid : Nat) (todayD : Int)
    (b : Booking) (hb : findBooking s bid = some b) (r : Room)
    (hr : findRoom s b.room_id = some r) (hst : b.status = .checkin)
    (hd : todayD ≤ b.check_in) :
    booking_checkout s bid todayD =
      .ok { s with bookings := s.bookings.map (checkoutFn bid todayD r.rate) }
    ∧ checkoutFn bid todayD r.rate b ∈
        s.bookings.map (checkoutFn bid todayD r.rate)
    ∧ (checkoutFn bid todayD r.rate b).check_out ≤
        (checkoutFn bid todayD r.rate b).check_in
    ∧ (checkoutFn bid todayD r.rate b).total_amount = r.rate * 1 := by
  have hbid : (b.id == bid) = true := by simpa using List.find?_some hb
  refine ⟨booking_checkout_success s bid todayD b hb hst r hr,
    List.mem_map_of_mem _ (List.mem_of_find?_eq_some hb), ?_, ?_⟩
  · unfold checkoutFn
    rw [if_pos hbid]
    exact hd
  · unfold checkoutFn
    rw [if_pos hbid]
    show r.rate * max (todayD - b.check_in) 1 = r.rate * 1
    rw [max_eq_right (by omega)]

theorem booking_checkout_clamps_witness :
    (checkoutFn 1 0 room101.rate demoBookingAin).check_out ≤
      (checkoutFn 1 0 room101.rate demoBookingAin).check_in
    ∧ (checkoutFn 1 0 room101.rate demoBookingAin).total_amount =
      room101.rate * 1 := by
  have h := booking_checkout_clamps demoS2 1 0 demoBookingAin rfl room101 rfl
    rfl (by decide)
  exact ⟨h.2.2.1, h.2.2.2⟩

/-- C10: successful check-in and cancel change only the target booking's
status: the rooms table, every booking's id, room, guest, dates, notes and
amount are unchanged position by position, and every other booking (id
different from the target) is wholly unchanged. -/
theorem checkin_cancel_status_only (s : Store) (bid : Nat) :
    (∀ s', booking_checkin s bid = .ok s' →
      s'.rooms = s.rooms
      ∧ s'.bookings.map Booking.id = s.bookings.map Booking.id
      ∧ s'.bookings.map Booking.room_id = s.bookings.map Booking.room_id
      ∧ s'.bookings.map Booking.guest_id = s.bookings.map Booking.guest_id
      ∧ s'.bookings.map Booking.check_in = s.bookings.map Booking.check_in
      ∧ s'.bookings.map Booking.check_out = s.bookings.map Booking.check_out
      ∧ s'.bookings.map Booking.notes = s.bookings.map Booking.notes
      ∧ s'.bookings.map Booking.total_amount
          = s.bookings.map Booking.total_amount
      ∧ ∀ x ∈ s.bookings, ¬ x.id = bid → x ∈ s'.bookings)
    ∧ (∀ s', booking_cancel s bid = .ok s' →
      s'.rooms = s.rooms
      ∧ s'.bookings.map Booking.id = s.bookings.map Booking.id
      ∧ s'.bookings.map Booking.room_id = s.bookings.map Booking.room_id
      ∧ s'.bookings.map Booking.guest_id = s.bookings.map Booking.guest_id
      ∧ s'.bookings.map Booking.check_in = s.bookings.map Booking.check_in
      ∧ s'.bookings.map Booking.check_out = s.bookings.map Booking.check_out
      ∧ s'.bookings.map Booking.notes = s.bookings.map Booking.notes
      ∧ s'.bookings.map Booking.total_amount
          = s.bookings.map Booking.total_amount
      ∧ ∀ x ∈ s.bookings, ¬ x.id = bid → x ∈ s'.bookings) := by
  constructor
  · intro s' hok
    obtain ⟨b, hb, hst, rfl⟩ := booking_checkin_ok s s' bid hok
    refine ⟨rfl,
      map_proj_of_pointwise _ _ (fun x => (checkinFn_frame bid x).1) _,
      map_proj_of_pointwise _ _ (fun x => (checkinFn_frame bid x).2.1) _,
      map_proj_of_pointwise _ _ (fun x => (checkinFn_frame bid x).2.2.1) _,
      map_proj_of_pointwise _ _ (fun x => (checkinFn_frame bid x).2.2.2.1) _,
      map_proj_of_pointwise _ _
        (fun x => (checkinFn_frame bid x).2.2.2.2.1) _,
      map_proj_of_pointwise _ _
        (fun x => (checkinFn_frame bid x).2.2.2.2.2.1) _,
      map_proj_of_pointwise _ _
        (fun x => (checkinFn_frame bid x).2.2.2.2.2.2) _, ?_⟩
    intro x hx hxid
    exact checkinFn_neg hxid ▸ List.mem_map_of_mem _ hx
  · intro s' hok
    obtain ⟨b, hb, hst, rfl⟩ := booking_cancel_ok s s' bid hok
    refine ⟨rfl,
      map_proj_of_pointwise _ _ (fun x => (cancelFn_frame bid x).1) _,
      map_proj_of_pointwise _ _ (fun x => (cancelFn_frame bid x).2.1) _,
      map_proj_of_pointwise _ _ (fun x => (cancelFn_frame bid x).2.2.1) _,
      map_proj_of_pointwise _ _ (fun x => (cancelFn_frame bid x).2.2.2.1) _,
      map_proj_of_pointwise _ _
        (fun x => (cancelFn_frame bid x).2.2.2.2.1) _,
      map_proj_of_pointwise _ _
        (fun x => (cancelFn_frame bid x).2.2.2.2.2.1) _,
      map_proj_of_pointwise _ _
        (fun x => (cancelFn_frame bid x).2.2.2.2.2.2) _, ?_⟩
    intro x hx hxid
    exact cancelFn_neg hxid ▸ List.mem_map_of_mem _ hx

theorem checkin_cancel_status_only_witness :
    demoS2.rooms = demoS1.rooms ∧ demoS1c.rooms = demoS1.rooms :=
  ⟨((checkin_cancel_status_only demoS1 1).1 demoS2 (by rfl)).1,
   ((checkin_cancel_status_only demoS1 1).2 demoS1c (by rfl)).1⟩

end HotelJT
